import Mathlib

/-!
Shallow embedding of the Waveshare 1.54" (B) v2 e-paper driver
(`src/epd1in54b_v2/mod.rs`).  Each driver operation is modelled as a pure
function from the driver state to the sequence of observable bus events it
emits, together with a flag recording whether the operation aborts fatally
(a Rust `assert!` failure or `unimplemented!`).  Bus transactions are
command bytes and data bytes; busy-waits and reset pulses are recorded as
separate, non-transaction events.
-/

namespace EpdWaveshare

/-- Modelled from the spec: the color model (`TriColor` in `src/color.rs`,
not included under `src/`): a closed set of the three panel colors. -/
inductive TriColor : Type
  | White
  | Black
  | Chromatic
  deriving DecidableEq, Repr

/-- Modelled from the spec: each color maps to exactly one encoded byte value
used for plane fill (`TriColor::get_byte_value` in `src/color.rs`, not
included under `src/`); the chromatic color has no dedicated achromatic-plane
encoding and is handled structurally by `clear_frame`. -/
def TriColor.get_byte_value : TriColor → Nat
  | TriColor.White => 0xFF
  | TriColor.Black => 0x00
  | TriColor.Chromatic => 0x00

/-- Modelled from the spec: refresh look-up-table profile selector
(`RefreshLut` in `src/traits.rs`, not included under `src/`); only its role
as the argument type of `set_lut` matters here. -/
inductive RefreshLut : Type
  | Full
  | Quick
  deriving DecidableEq, Repr

/-- The panel controller opcodes used by this driver
(`crate::type_a::command::Command`); the opcode byte values live outside
`src/`, so the opcodes are abstract constructors here. -/
inductive Command : Type
  | SwReset
  | DriverOutputControl
  | DataEntryModeSetting
  | SetRamXAddressStartEndPosition
  | SetRamYAddressStartEndPosition
  | SetRamXAddressCounter
  | SetRamYAddressCounter
  | WriteRam
  | WriteRam2
  | BorderWaveformControl
  | TemperatureSensorSelection
  | TemperatureSensorControl
  | DisplayUpdateControl2
  | MasterActivation
  | Nop
  | DeepSleepMode
  deriving DecidableEq, Repr

/-- Observable bus/control events of the driver, in emission order:
a timed reset pulse, a busy-line poll (with the polarity polled for),
a command byte, or a single data byte. -/
inductive Event : Type
  | reset (lowUs highUs : Nat)
  | busyWait (busyLow : Bool)
  | cmd (c : Command)
  | dataByte (b : Nat)
  deriving DecidableEq, Repr

/-- A bus transaction is a command byte or a data byte on the SPI bus;
reset pulses and busy-line polls are not bus transactions. -/
def Event.isBusTransaction : Event → Bool
  | Event.cmd _ => true
  | Event.dataByte _ => true
  | _ => false

/-- Width of epd1in54 in pixels (`WIDTH`). -/
def WIDTH : Nat := 200

/-- Height of epd1in54 in pixels (`HEIGHT`). -/
def HEIGHT : Nat := 200

/-- Default Background Color (`DEFAULT_BACKGROUND_COLOR`). -/
def DEFAULT_BACKGROUND_COLOR : TriColor := TriColor.White

/-- Busy-line polarity of this panel (`IS_BUSY_LOW`). -/
def IS_BUSY_LOW : Bool := false

/-- Driver state (`Epd1in54b`): the interface handle carries no
protocol-relevant state, so only the background color remains. -/
structure Epd1in54b : Type where
  background_color : TriColor
  deriving DecidableEq, Repr

/-- Result of running an operation: the events emitted, and whether the
operation aborted fatally (Rust panic). -/
def Res : Type := List Event × Bool

/-- Sequencing of two fallible runs: a fatal abort short-circuits,
otherwise traces concatenate (Rust `?`/statement sequencing). -/
def seqR (a b : Res) : Res :=
  if a.2 then a else (a.1 ++ b.1, b.2)

/-- A successful run emitting the given events. -/
def emit (es : List Event) : Res := (es, false)

/-- `DisplayInterface::cmd_with_data`: one command byte followed by the
payload bytes. -/
def cmd_with_data (c : Command) (d : List Nat) : List Event :=
  Event.cmd c :: d.map Event.dataByte

/-- `DisplayInterface::data_x_times`: one data byte value repeated. -/
def data_x_times (val n : Nat) : List Event :=
  List.replicate n (Event.dataByte val)

/-- Trace of one `wait_until_idle` call: a single busy-line poll with the
panel's polarity, and no bus transaction. -/
def busyWaitTrace : List Event := [Event.busyWait IS_BUSY_LOW]

/-- Abstract SPI transport error type (`SPI::Error`); never constructed by
`wait_until_idle`. -/
def SpiError : Type := Unit

/-- `wait_until_idle`: polls the busy line via the interface (which returns
no error) and then returns `Ok(())` unconditionally. -/
def wait_until_idle (_self : Epd1in54b) : Except SpiError (List Event) :=
  Except.ok busyWaitTrace

/-- `set_ram_area`: busy-wait, assert `start_x < end_x` and
`start_y < end_y`, then emit the X window (byte-truncated `>> 3` payloads)
and the Y window (each coordinate split into low byte and high byte). -/
def set_ram_area (_self : Epd1in54b) (start_x start_y end_x end_y : Nat) : Res :=
  if start_x < end_x then
    if start_y < end_y then
      emit (busyWaitTrace ++
        cmd_with_data Command.SetRamXAddressStartEndPosition
          [(start_x >>> 3) % 256, (end_x >>> 3) % 256] ++
        cmd_with_data Command.SetRamYAddressStartEndPosition
          [start_y % 256, (start_y >>> 8) % 256, end_y % 256, (end_y >>> 8) % 256])
    else (busyWaitTrace, true)
  else (busyWaitTrace, true)

/-- `set_ram_counter`: busy-wait, then X counter (`x >> 3`, byte-truncated)
and Y counter (low byte, high byte). -/
def set_ram_counter (_self : Epd1in54b) (x y : Nat) : Res :=
  emit (busyWaitTrace ++
    cmd_with_data Command.SetRamXAddressCounter [(x >>> 3) % 256] ++
    cmd_with_data Command.SetRamYAddressCounter [y % 256, (y >>> 8) % 256])

/-- `use_full_frame`: set the window to the full panel extent, then reset
the RAM counter to the origin. -/
def use_full_frame (self : Epd1in54b) : Res :=
  seqR (set_ram_area self 0 0 (WIDTH - 1) (HEIGHT - 1)) (set_ram_counter self 0 0)

/-- `init`: reset pulse, busy-wait, software reset, busy-wait, driver output
control, data entry mode, full-extent window, border waveform, temperature
sensor selection and control, RAM counter reset, final busy-wait. -/
def init (self : Epd1in54b) : Res :=
  seqR (emit [Event.reset 10000 10000]) <|
  seqR (emit busyWaitTrace) <|
  seqR (emit [Event.cmd Command.SwReset]) <|
  seqR (emit busyWaitTrace) <|
  seqR (emit (cmd_with_data Command.DriverOutputControl [(HEIGHT - 1) % 256, 0x00, 0x00])) <|
  seqR (emit (cmd_with_data Command.DataEntryModeSetting [0x3])) <|
  seqR (set_ram_area self 0 0 (WIDTH - 1) (HEIGHT - 1)) <|
  seqR (emit (cmd_with_data Command.BorderWaveformControl [0x05])) <|
  seqR (emit (cmd_with_data Command.TemperatureSensorSelection [0x80])) <|
  seqR (emit (cmd_with_data Command.TemperatureSensorControl [0xB1, 0x20])) <|
  seqR (set_ram_counter self 0 0) <|
  emit busyWaitTrace

/-- `wake_up`: delegates to `init`. -/
def wake_up (self : Epd1in54b) : Res :=
  init self

/-- `sleep`: busy-wait, then deep-sleep opcode with payload `[0x01]`. -/
def sleep (_self : Epd1in54b) : Res :=
  emit (busyWaitTrace ++ cmd_with_data Command.DeepSleepMode [0x01])

/-- `set_background_color`: assigns the background color field; no bus
access. -/
def set_background_color (self : Epd1in54b) (color : TriColor) : Epd1in54b × List Event :=
  ({ self with background_color := color }, [])

/-- `update_frame`: busy-wait, full-frame preamble, then the achromatic
plane write with the whole buffer. -/
def update_frame (self : Epd1in54b) (buffer : List Nat) : Res :=
  seqR (emit busyWaitTrace) <|
  seqR (use_full_frame self) <|
  emit (cmd_with_data Command.WriteRam buffer)

/-- `update_achromatic_frame`: busy-wait, full-frame preamble, achromatic
plane write. -/
def update_achromatic_frame (self : Epd1in54b) (black : List Nat) : Res :=
  seqR (emit busyWaitTrace) <|
  seqR (use_full_frame self) <|
  emit (cmd_with_data Command.WriteRam black)

/-- `update_chromatic_frame`: busy-wait, full-frame preamble, chromatic
plane write. -/
def update_chromatic_frame (self : Epd1in54b) (chromatic : List Nat) : Res :=
  seqR (emit busyWaitTrace) <|
  seqR (use_full_frame self) <|
  emit (cmd_with_data Command.WriteRam2 chromatic)

/-- `update_color_frame`: the achromatic write, then the chromatic write. -/
def update_color_frame (self : Epd1in54b) (black chromatic : List Nat) : Res :=
  seqR (update_achromatic_frame self black) (update_chromatic_frame self chromatic)

/-- `update_partial_frame`: `unimplemented!()` — fatal abort before any
event. -/
def update_partial_frame (_self : Epd1in54b) (_buffer : List Nat)
    (_x _y _width _height : Nat) : Res :=
  ([], true)

/-- `display_frame`: busy-wait, display update control 2 with payload
`[0xF7]`, master activation, then a terminating no-op. -/
def display_frame (_self : Epd1in54b) : Res :=
  emit (busyWaitTrace ++
    cmd_with_data Command.DisplayUpdateControl2 [0xF7] ++
    [Event.cmd Command.MasterActivation, Event.cmd Command.Nop])

/-- `update_and_display_frame`: `update_frame` then `display_frame`. -/
def update_and_display_frame (self : Epd1in54b) (buffer : List Nat) : Res :=
  seqR (update_frame self buffer) (display_frame self)

/-- `clear_frame`: busy-wait, full-frame preamble, then fill both planes;
the achromatic fill depends on the background color, with a doubled byte
count when the background is chromatic. -/
def clear_frame (self : Epd1in54b) : Res :=
  seqR (emit busyWaitTrace) <|
  seqR (use_full_frame self) <|
  emit (if self.background_color = TriColor.Chromatic then
    Event.cmd Command.WriteRam ::
      (data_x_times 0xFF (2 * (WIDTH / 8 * HEIGHT)) ++
       Event.cmd Command.WriteRam2 :: data_x_times 0x00 (WIDTH / 8 * HEIGHT))
  else
    Event.cmd Command.WriteRam ::
      (data_x_times (TriColor.get_byte_value self.background_color) (WIDTH / 8 * HEIGHT) ++
       Event.cmd Command.WriteRam2 :: data_x_times 0x00 (WIDTH / 8 * HEIGHT)))

/-- `set_lut`: `unimplemented!()` — fatal abort before any event. -/
def set_lut (_self : Epd1in54b) (_refresh_rate : Option RefreshLut) : Res :=
  ([], true)

/-- The full-frame preamble trace shared by every whole-buffer operation:
`set_ram_area 0 0 199 199` followed by `set_ram_counter 0 0`. -/
def fullFramePreamble : List Event :=
  [Event.busyWait IS_BUSY_LOW,
   Event.cmd Command.SetRamXAddressStartEndPosition,
   Event.dataByte 0, Event.dataByte 24,
   Event.cmd Command.SetRamYAddressStartEndPosition,
   Event.dataByte 0, Event.dataByte 0, Event.dataByte 199, Event.dataByte 0,
   Event.busyWait IS_BUSY_LOW,
   Event.cmd Command.SetRamXAddressCounter, Event.dataByte 0,
   Event.cmd Command.SetRamYAddressCounter, Event.dataByte 0, Event.dataByte 0]

/-- The full `init` trace, written out event by event. -/
def initTrace : List Event :=
  [Event.reset 10000 10000,
   Event.busyWait IS_BUSY_LOW,
   Event.cmd Command.SwReset,
   Event.busyWait IS_BUSY_LOW,
   Event.cmd Command.DriverOutputControl,
   Event.dataByte 199, Event.dataByte 0, Event.dataByte 0,
   Event.cmd Command.DataEntryModeSetting, Event.dataByte 3,
   Event.busyWait IS_BUSY_LOW,
   Event.cmd Command.SetRamXAddressStartEndPosition,
   Event.dataByte 0, Event.dataByte 24,
   Event.cmd Command.SetRamYAddressStartEndPosition,
   Event.dataByte 0, Event.dataByte 0, Event.dataByte 199, Event.dataByte 0,
   Event.cmd Command.BorderWaveformControl, Event.dataByte 5,
   Event.cmd Command.TemperatureSensorSelection, Event.dataByte 0x80,
   Event.cmd Command.TemperatureSensorControl, Event.dataByte 0xB1, Event.dataByte 0x20,
   Event.busyWait IS_BUSY_LOW,
   Event.cmd Command.SetRamXAddressCounter, Event.dataByte 0,
   Event.cmd Command.SetRamYAddressCounter, Event.dataByte 0, Event.dataByte 0,
   Event.busyWait IS_BUSY_LOW]

theorem use_full_frame_eq (self : Epd1in54b) :
    use_full_frame self = (fullFramePreamble, false) := rfl

theorem init_eq (self : Epd1in54b) : init self = (initTrace, false) := rfl

/-- C1: for every driver state, `display_frame` emits exactly a busy-wait,
the display-update-control-2 opcode with single payload byte `0xF7`, the
master-activation opcode, then immediately the no-op opcode, with nothing
interposed and nothing after. -/
theorem display_frame_exact_sequence (self : Epd1in54b) :
    display_frame self =
      ([Event.busyWait IS_BUSY_LOW,
        Event.cmd Command.DisplayUpdateControl2, Event.dataByte 0xF7,
        Event.cmd Command.MasterActivation, Event.cmd Command.Nop], false) := rfl

/-- C2: `clear_frame` with chromatic background writes the achromatic-plane
opcode followed by `2*(200/8)*200 = 10000` bytes `0xFF` then the
chromatic-plane opcode followed by `5000` bytes `0x00`; with any
non-chromatic background it writes `5000` bytes of that color's encoded
value then `5000` bytes `0x00`. -/
theorem clear_frame_fill_pattern (bg : TriColor) :
    clear_frame { background_color := bg } =
      ((Event.busyWait IS_BUSY_LOW :: fullFramePreamble) ++
        (if bg = TriColor.Chromatic then
          Event.cmd Command.WriteRam ::
            (List.replicate 10000 (Event.dataByte 0xFF) ++
             Event.cmd Command.WriteRam2 :: List.replicate 5000 (Event.dataByte 0x00))
        else
          Event.cmd Command.WriteRam ::
            (List.replicate 5000 (Event.dataByte (TriColor.get_byte_value bg)) ++
             Event.cmd Command.WriteRam2 :: List.replicate 5000 (Event.dataByte 0x00))),
       false) := by
  cases bg <;> rfl

/-- C3: `set_ram_area` with `start_x ≥ end_x` or `start_y ≥ end_y` aborts
fatally, and no command or data byte is issued before the abort (only the
busy-wait, which is not a bus transaction). -/
theorem set_ram_area_invalid_window_fails_fast (self : Epd1in54b)
    (start_x start_y end_x end_y : Nat)
    (h : start_x ≥ end_x ∨ start_y ≥ end_y) :
    (set_ram_area self start_x start_y end_x end_y).2 = true ∧
    ∀ e ∈ (set_ram_area self start_x start_y end_x end_y).1,
      e.isBusTransaction = false := by
  have hfail : set_ram_area self start_x start_y end_x end_y = (busyWaitTrace, true) := by
    unfold set_ram_area
    rcases h with h | h
    · rw [if_neg (Nat.not_lt.mpr h)]
    · by_cases hx : start_x < end_x
      · rw [if_pos hx, if_neg (Nat.not_lt.mpr h)]
      · rw [if_neg hx]
  rw [hfail]
  refine ⟨rfl, ?_⟩
  intro e he
  simp only [busyWaitTrace, List.mem_singleton] at he
  subst he
  rfl

theorem set_ram_area_invalid_window_fails_fast_witness :
    (set_ram_area { background_color := TriColor.White } 7 0 7 5).2 = true ∧
    ∀ e ∈ (set_ram_area { background_color := TriColor.White } 7 0 7 5).1,
      e.isBusTransaction = false :=
  set_ram_area_invalid_window_fails_fast { background_color := TriColor.White }
    7 0 7 5 (Or.inl (by decide))

/-- C4: for valid windows `set_ram_area` emits the X-window opcode with the
two byte-truncated payloads `start_x >> 3` and `end_x >> 3` (unchanged by
any modification of the low 3 bits of the X coordinates) and the Y-window
opcode with each Y coordinate split little-endian over two bytes;
`set_ram_counter` analogously emits `[x >> 3]` and `[y low, y high]`. -/
theorem set_ram_payload_encoding (self : Epd1in54b)
    (start_x start_y end_x end_y x y : Nat)
    (hx : start_x < end_x) (hy : start_y < end_y) :
    set_ram_area self start_x start_y end_x end_y =
      ([Event.busyWait IS_BUSY_LOW,
        Event.cmd Command.SetRamXAddressStartEndPosition,
        Event.dataByte ((start_x >>> 3) % 256), Event.dataByte ((end_x >>> 3) % 256),
        Event.cmd Command.SetRamYAddressStartEndPosition,
        Event.dataByte (start_y % 256), Event.dataByte ((start_y >>> 8) % 256),
        Event.dataByte (end_y % 256), Event.dataByte ((end_y >>> 8) % 256)], false) ∧
    set_ram_counter self x y =
      ([Event.busyWait IS_BUSY_LOW,
        Event.cmd Command.SetRamXAddressCounter, Event.dataByte ((x >>> 3) % 256),
        Event.cmd Command.SetRamYAddressCounter,
        Event.dataByte (y % 256), Event.dataByte ((y >>> 8) % 256)], false) ∧
    ∀ sx2 ex2 : Nat, sx2 >>> 3 = start_x >>> 3 → ex2 >>> 3 = end_x >>> 3 →
      sx2 < ex2 →
      set_ram_area self sx2 start_y ex2 end_y =
        set_ram_area self start_x start_y end_x end_y := by
  refine ⟨?_, rfl, ?_⟩
  · unfold set_ram_area
    rw [if_pos hx, if_pos hy]
    rfl
  · intro sx2 ex2 h1 h2 h3
    unfold set_ram_area
    simp only [if_pos hx, if_pos hy, if_pos h3, h1, h2]

theorem set_ram_payload_encoding_witness :
    set_ram_area { background_color := TriColor.White } 5 0 13 300 =
      ([Event.busyWait IS_BUSY_LOW,
        Event.cmd Command.SetRamXAddressStartEndPosition,
        Event.dataByte 0, Event.dataByte 1,
        Event.cmd Command.SetRamYAddressStartEndPosition,
        Event.dataByte 0, Event.dataByte 0,
        Event.dataByte 44, Event.dataByte 1], false) ∧
    set_ram_counter { background_color := TriColor.White } 12 300 =
      ([Event.busyWait IS_BUSY_LOW,
        Event.cmd Command.SetRamXAddressCounter, Event.dataByte 1,
        Event.cmd Command.SetRamYAddressCounter,
        Event.dataByte 44, Event.dataByte 1], false) ∧
    set_ram_area { background_color := TriColor.White } 6 0 14 300 =
      set_ram_area { background_color := TriColor.White } 5 0 13 300 := by
  have h := set_ram_payload_encoding { background_color := TriColor.White }
    5 0 13 300 12 300 (by decide) (by decide)
  exact ⟨h.1, h.2.1, h.2.2 6 14 (by decide) (by decide) (by decide)⟩

/-- C5 counterexample: in the `init` transaction sequence the RAM
X-counter command occurs in the trace but not before the border-waveform
command, refuting the claim that the counter transactions precede the
border-waveform and temperature-sensor transactions. -/
theorem init_counter_before_border_refuted :
    Event.cmd Command.SetRamXAddressCounter ∈
      (init { background_color := TriColor.White }).1 ∧
    Event.cmd Command.SetRamXAddressCounter ∉
      (init { background_color := TriColor.White }).1.takeWhile
        (fun e => decide (e ≠ Event.cmd Command.BorderWaveformControl)) := by
  decide

/-- C5 amended: during `init`, the window transactions (RAM X/Y start-end
positions) precede the border-waveform and temperature-sensor
transactions, but the RAM X/Y-counter transactions come after the
temperature-sensor-control transaction; the whole trace is `initTrace`. -/
theorem init_window_first_counter_last (self : Epd1in54b) :
    init self = (initTrace, false) ∧
    (Event.cmd Command.SetRamXAddressStartEndPosition ∈
       initTrace.takeWhile
         (fun e => decide (e ≠ Event.cmd Command.BorderWaveformControl)) ∧
     Event.cmd Command.SetRamYAddressStartEndPosition ∈
       initTrace.takeWhile
         (fun e => decide (e ≠ Event.cmd Command.BorderWaveformControl))) ∧
    (Event.cmd Command.SetRamXAddressCounter ∉
       initTrace.takeWhile
         (fun e => decide (e ≠ Event.cmd Command.TemperatureSensorControl)) ∧
     Event.cmd Command.SetRamXAddressCounter ∈ initTrace ∧
     Event.cmd Command.SetRamYAddressCounter ∈ initTrace) :=
  ⟨rfl, by decide, by decide⟩

/-- C6 counterexample: with buffers `[0x11]` and `[0x22]`, the
`update_color_frame` trace is not one busy-wait plus one full-frame
preamble followed directly by the two plane writes — a second busy-wait
and preamble are interposed before the chromatic write. -/
theorem update_color_frame_single_preamble_refuted :
    (update_color_frame { background_color := TriColor.White } [0x11] [0x22]).1 ≠
      [Event.busyWait IS_BUSY_LOW] ++ fullFramePreamble ++
        (cmd_with_data Command.WriteRam [0x11] ++
         cmd_with_data Command.WriteRam2 [0x22]) := by
  decide

/-- C6 amended: `update_color_frame` emits a busy-wait and full-frame
preamble then the achromatic-plane write with the black buffer, followed by
a second busy-wait and full-frame preamble then the chromatic-plane write
with the chromatic buffer, with no further transactions. -/
theorem update_color_frame_per_plane_preamble (self : Epd1in54b)
    (black chromatic : List Nat) :
    update_color_frame self black chromatic =
      ((Event.busyWait IS_BUSY_LOW :: fullFramePreamble) ++
         cmd_with_data Command.WriteRam black ++
       ((Event.busyWait IS_BUSY_LOW :: fullFramePreamble) ++
         cmd_with_data Command.WriteRam2 chromatic), false) := by
  show (((busyWaitTrace ++ (fullFramePreamble ++ cmd_with_data Command.WriteRam black)) ++
      (busyWaitTrace ++ (fullFramePreamble ++ cmd_with_data Command.WriteRam2 chromatic))),
      false) = _
  simp [busyWaitTrace, List.append_assoc]

/-- C7: `wake_up` produces exactly the same event sequence as `init` on
every driver state, and that sequence (`initTrace`) contains no distinct
wake opcode. -/
theorem wake_up_equals_init (self : Epd1in54b) :
    wake_up self = init self ∧ wake_up self = (initTrace, false) :=
  ⟨rfl, rfl⟩

/-- C8: `update_partial_frame` and `set_lut` abort fatally for all
arguments, emitting no bus transaction (indeed no event at all) first. -/
theorem unsupported_ops_fail_without_transactions (self : Epd1in54b)
    (buffer : List Nat) (x y width height : Nat)
    (refresh_rate : Option RefreshLut) :
    update_partial_frame self buffer x y width height = ([], true) ∧
    set_lut self refresh_rate = ([], true) :=
  ⟨rfl, rfl⟩

/-- C9: `set_background_color` only replaces the background-color field and
emits no event, and every listed operation other than `clear_frame` emits
an identical trace on any two driver states. -/
theorem set_background_color_only_affects_clear (self s1 s2 : Epd1in54b)
    (color : TriColor) (buffer black chromatic : List Nat)
    (start_x start_y end_x end_y x y : Nat) :
    set_background_color self color = ({ background_color := color }, []) ∧
    update_frame s1 buffer = update_frame s2 buffer ∧
    update_color_frame s1 black chromatic = update_color_frame s2 black chromatic ∧
    display_frame s1 = display_frame s2 ∧
    sleep s1 = sleep s2 ∧
    set_ram_area s1 start_x start_y end_x end_y =
      set_ram_area s2 start_x start_y end_x end_y ∧
    set_ram_counter s1 x y = set_ram_counter s2 x y :=
  ⟨rfl, rfl, rfl, rfl, rfl, rfl, rfl⟩

/-- C10: `wait_until_idle` always returns `Ok` with only a busy-line poll
at the panel's busy-low-is-false polarity, and that poll is not a bus
transaction; hence no transport failure can originate from a busy-wait. -/
theorem wait_until_idle_always_ok (self : Epd1in54b) :
    wait_until_idle self = Except.ok busyWaitTrace ∧
    IS_BUSY_LOW = false ∧
    ∀ e ∈ busyWaitTrace, e.isBusTransaction = false := by
  refine ⟨rfl, rfl, ?_⟩
  intro e he
  simp only [busyWaitTrace, List.mem_singleton] at he
  subst he
  rfl

end EpdWaveshare
